import Mathlib

/-!
Verification development for the descriptive SVG renamer
(`tools/rename_shapes_descriptive.py`).

The Python source is shallowly embedded: strings are Lean `String`s
(sanitisation is carried out on their character lists), the parsed SVG
tree is an inductive `SvgNode`, a failed parse is `Option.none`, the
embedded HTML comment is an `Option String` (with Python truthiness:
an empty string behaves like an absent comment), and machine integers
are `Nat` (all counts are non-negative; `fill_none_count >
total_shapes / 2` is rendered exactly as `2 * fill_none_count >
total_shapes`).
-/

namespace ShapeAssets

/-! ## Character-level helpers for name sanitisation -/

/-- A lower-case ASCII letter or digit, the character class `[a-z0-9]`. -/
def isLowerAl (c : Char) : Bool :=
  ('a' ≤ c && c ≤ 'z') || ('0' ≤ c && c ≤ '9')

/-- One step of `re.sub(r'[^a-z0-9-]', '-', s)`: keep characters in
`[a-z0-9-]`, replace everything else by `'-'`. -/
def sanChar (c : Char) : Char :=
  if isLowerAl c || c == '-' then c else '-'

/-- The per-character effect of `s.lower()` followed by the
`[^a-z0-9-]` substitution. -/
def cleanChar (c : Char) : Char :=
  sanChar (Char.toLower c)

/-- Number of `'-'` characters in a character list. -/
def countDash (l : List Char) : Nat :=
  (l.filter (fun c => c == '-')).length

/-- `re.sub(r'-+', '-', s)`: collapse each run of dashes to a single dash. -/
def collapseD : List Char → List Char
  | [] => []
  | [c] => [c]
  | c1 :: c2 :: t =>
    if c1 == '-' && c2 == '-' then collapseD (c2 :: t)
    else c1 :: collapseD (c2 :: t)

/-- `s.strip('-')`: drop leading and trailing dashes. -/
def stripD (l : List Char) : List Char :=
  (((l.dropWhile (fun c => c == '-')).reverse.dropWhile (fun c => c == '-')).reverse)

/-- The whole clean-up pipeline applied after joining the name parts:
lower-case, replace characters outside `[a-z0-9-]`, collapse dash runs,
strip edge dashes. -/
def cleanupD (l : List Char) : List Char :=
  stripD (collapseD (l.map cleanChar))

/-- Split a character list at dashes; the pieces are the
hyphen-separated segments (a list with `countDash l + 1` entries). -/
def splitDash : List Char → List (List Char)
  | [] => [[]]
  | c :: t =>
    if c == '-' then [] :: splitDash t
    else
      match splitDash t with
      | s :: ss => (c :: s) :: ss
      | [] => [[c]]

/-- Automaton for the regular expression `[a-z0-9]+(-[a-z0-9]+)*`.
The state records whether the next character must start a new
(non-empty) alphanumeric segment. -/
def stemOkAux : Bool → List Char → Bool
  | needAl, [] => !needAl
  | needAl, c :: t =>
    if c == '-' then !needAl && stemOkAux true t
    else isLowerAl c && stemOkAux false t

/-- `stemOk l` holds exactly when `l` matches `[a-z0-9]+(-[a-z0-9]+)*`. -/
def stemOk (l : List Char) : Bool :=
  stemOkAux true l

/-- No two consecutive dashes. -/
def noDD : List Char → Bool
  | c1 :: c2 :: t => !(c1 == '-' && c2 == '-') && noDD (c2 :: t)
  | _ => true

/-- The characters of a name before the final `.svg` extension. -/
def stemOf (s : String) : List Char :=
  s.toList.take (s.toList.length - 4)

/-- Decidable rendering of the spec regex `^[a-z0-9]+(-[a-z0-9]+)*\.svg$`:
the last four characters are `.svg` and the part before them matches
`[a-z0-9]+(-[a-z0-9]+)*`. -/
def svgNameOk (s : String) : Bool :=
  (s.toList.drop (s.toList.length - 4) == ['.', 's', 'v', 'g']) && stemOk (stemOf s)

/-- Number of hyphen-separated segments of the part of the name before
the `.svg` extension. -/
def segCount (s : String) : Nat :=
  (splitDash (stemOf s)).length

/-! ## Substring search (`needle in haystack` on Python strings) -/

/-- Contiguous-sublist test on character lists. -/
def isInfixL (needle : List Char) : List Char → Bool
  | [] => needle.isEmpty
  | c :: t => needle.isPrefixOf (c :: t) || isInfixL needle t

/-- Python's `needle in hay` substring test. -/
def substr (hay needle : String) : Bool :=
  isInfixL needle.toList hay.toList

/-- `s.lower()` character by character (ASCII case mapping). -/
def lowerStr (s : String) : String :=
  String.mk (s.toList.map Char.toLower)

/-- The pattern `'word' in self.comment.lower() if self.comment else False`
used by the category-specific rules; an absent (or empty, hence falsy)
comment never matches. -/
def commentHas (comment : Option String) (needle : String) : Bool :=
  match comment with
  | none => false
  | some c => if c.toList.isEmpty then false else substr (lowerStr c) needle

/-! ## SVG structural model (`xml.etree` tree, `_parse`, `count_elements`) -/

/-- A parsed SVG element: tag, attributes, children.  A failed parse is
represented by `Option.none` at use sites (`self.root = None`). -/
inductive SvgNode where
  | elem (tag : String) (attrs : List (String × String)) (children : List SvgNode)

/-- Tag of an element. -/
def SvgNode.tagOf : SvgNode → String
  | .elem t _ _ => t

/-- Attribute list of an element. -/
def SvgNode.attrsOf : SvgNode → List (String × String)
  | .elem _ a _ => a

/-- `elem.get(key)`: attribute lookup. -/
def SvgNode.getAttr (n : SvgNode) (k : String) : Option String :=
  (n.attrsOf.find? (fun p => p.1 == k)).map (fun p => p.2)

mutual

/-- `root.iter()`: the element followed by all its descendants. -/
def SvgNode.iterL : SvgNode → List SvgNode
  | .elem t a cs => .elem t a cs :: iterChildren cs

/-- Iteration over a list of sibling subtrees. -/
def iterChildren : List SvgNode → List SvgNode
  | [] => []
  | n :: ns => n.iterL ++ iterChildren ns

end

/-- `tag.split('}')[-1]`: strip a namespace qualifier from a tag (the
last piece of the split is the suffix after the last `'\x7d'`). -/
def stripNs (tag : String) : String :=
  String.mk ((tag.toList.reverse.takeWhile (fun c => !(c == '\x7d'))).reverse)

/-- `count_elements()[t]`: occurrences of structural kind `t` in the
whole tree, namespaces stripped; every count is zero when the parse
failed (`self.root is None` gives an empty `defaultdict`). -/
def count_elements (root : Option SvgNode) (t : String) : Nat :=
  match root with
  | none => 0
  | some r => (r.iterL.filter (fun e => stripNs e.tagOf == t)).length

/-- `len([e for e in self.root.iter() if e.get('fill') == 'none'])`,
zero when the parse failed. -/
def fill_none_count (root : Option SvgNode) : Nat :=
  match root with
  | none => 0
  | some r => (r.iterL.filter (fun e => e.getAttr "fill" == some "none")).length

/-! ## Descriptor inference (`analyze_shape_characteristics`) -/

/-- Rule 1, the annotation multiplicity chain (first match wins). -/
def multTokens (cl : String) : List String :=
  if substr cl "double" || substr cl "dual" then ["double"]
  else if substr cl "triple" || substr cl "three" then ["triple"]
  else if substr cl "four" || substr cl "quad" then ["quad"]
  else if substr cl "cluster" || substr cl "multi" then ["cluster"]
  else []

/-- The fixed adjective vocabulary of rule 2, in source order. -/
def descriptors : List String :=
  ["bold", "simple", "classic", "minimal", "organic", "geometric",
   "rounded", "angular", "layered", "stacked", "centered",
   "outline", "filled", "thick", "thin", "wavy", "straight",
   "curved", "pointed", "soft", "sharp", "horizontal", "vertical",
   "diagonal", "scattered", "tight", "wide", "tall", "chunky"]

/-- Rules 1 and 2 together: the block guarded by `if self.comment:`
(Python truthiness, so an empty comment contributes nothing). -/
def annotTokens (comment : Option String) : List String :=
  match comment with
  | none => []
  | some c =>
    if c.toList.isEmpty then []
    else
      let cl := lowerStr c
      multTokens cl ++ descriptors.filter (fun d => substr cl d)

/-- Rule 3: the category-count override for hearts/stars/sparkles;
`tokens` is the token list accumulated so far (membership guards). -/
def heartsStarsTokens (category : String) (circle_count polygon_count : Nat)
    (tokens : List String) : List String :=
  if category == "hearts" || category == "stars" || category == "sparkles" then
    if circle_count > 3 && polygon_count > 0 then
      if !(tokens.contains "cluster") then ["cluster"] else []
    else if circle_count ≥ 3 then
      if !(tokens.contains "triple") && !(tokens.contains "cluster") then ["triple"] else []
    else if circle_count == 2 then
      if !(tokens.contains "double") then ["double"] else []
    else []
  else []

/-- Rule 4: the outline-ratio rule (skipped entirely when the parse
failed; `fill_none > total / 2` is `2 * fill_none > total` on `Nat`). -/
def outlineTokens (root : Option SvgNode) (fillNone total : Nat)
    (tokens : List String) : List String :=
  match root with
  | none => []
  | some _ =>
    if 2 * fillNone > total && total > 0 then
      if !(tokens.contains "outline") then ["outline"] else []
    else []

/-- The `mountains` branch of rule 5. -/
def mountainsTokens (polygon_count : Nat) (tokens : List String) : List String :=
  if polygon_count ≥ 4 then ["range"]
  else if polygon_count ≥ 3 then
    if !(tokens.contains "layered") then ["layered"] else []
  else if polygon_count == 2 then
    if !(tokens.contains "double") then ["dual"] else []
  else if polygon_count == 1 then ["single"]
  else []

/-- The `waves` branch of rule 5. -/
def wavesTokens (path_count : Nat) (tokens : List String) : List String :=
  (if path_count ≥ 3 then ["triple"]
   else if path_count == 2 then ["double"]
   else []) ++
  (if tokens.contains "outline" then ["line"] else [])

/-- The `compasses` branch of rule 5. -/
def compassesTokens (polygon_count circle_count : Nat) : List String :=
  (if circle_count ≥ 2 then ["ringed"] else []) ++
  (if polygon_count ≥ 8 then ["eight-point"]
   else if polygon_count ≥ 4 then ["four-point"]
   else [])

/-- The `dividers` branch of rule 5. -/
def dividersTokens (polygon_count circle_count : Nat) : List String :=
  (if circle_count ≥ 3 then ["dotted"]
   else if circle_count ≥ 1 then ["centered"]
   else []) ++
  (if polygon_count > 0 then ["decorated"] else [])

/-- The shared `badges`/`shields` branch of rule 5. -/
def badgesTokens (comment : Option String) (polygon_count circle_count : Nat) : List String :=
  if circle_count > 10 then ["scalloped"]
  else if polygon_count ≥ 1 then
    if commentHas comment "hex" then ["hexagon"]
    else if commentHas comment "octagon" then ["octagon"]
    else if commentHas comment "diamond" then ["diamond"]
    else if commentHas comment "star" then ["star"]
    else []
  else []

/-- The `frames` branch of rule 5. -/
def framesTokens (comment : Option String) (polygon_count circle_count rect_count : Nat) :
    List String :=
  (if rect_count ≥ 2 || circle_count ≥ 2 then ["double"] else []) ++
  (if polygon_count ≥ 6 then ["hexagon"]
   else if polygon_count ≥ 8 then ["octagon"]
   else []) ++
  (if commentHas comment "corner" then ["corner"] else [])

/-- The `blobs` branch of rule 5. -/
def blobsTokens (comment : Option String) (circle_count rect_count ellipse_count : Nat) :
    List String :=
  (if ellipse_count ≥ 1 || circle_count ≥ 1 then
    if rect_count ≥ 1 then ["rounded"] else ["oval"]
   else []) ++
  (if commentHas comment "asymmetric" then ["asymmetric"] else [])

/-- The `lightning` branch of rule 5. -/
def lightningTokens (comment : Option String) (polygon_count : Nat) : List String :=
  (if polygon_count ≥ 2 then ["double"] else []) ++
  (if commentHas comment "zigzag" then ["zigzag"]
   else if commentHas comment "compact" then ["compact"]
   else [])

/-- The `speech_bubbles` branch of rule 5. -/
def speechTokens (comment : Option String) (circle_count ellipse_count : Nat) : List String :=
  (if circle_count ≥ 3 then ["thought"]
   else if ellipse_count ≥ 3 then ["cloud"]
   else []) ++
  (if commentHas comment "tail" then ["tail"] else [])

/-- The `accents` branch of rule 5. -/
def accentsTokens (circle_count rect_count line_count : Nat) : List String :=
  (if line_count ≥ 2 then ["double"] else []) ++
  (if circle_count ≥ 4 then ["dotted"]
   else if circle_count == 1 then ["circle"]
   else []) ++
  (if rect_count ≥ 2 then ["square"] else [])

/-- The `sticker_outlines` branch of rule 5. -/
def stickerTokens (comment : Option String) (polygon_count : Nat) : List String :=
  if polygon_count ≥ 1 then
    if commentHas comment "hex" then ["hexagon"]
    else if commentHas comment "star" then ["star"]
    else []
  else []

/-- Rule 5: the category-specific `elif` chain, in source order;
`tokens` is the token list accumulated so far. -/
def categoryTokens (category : String) (comment : Option String)
    (polygon_count circle_count path_count rect_count ellipse_count line_count : Nat)
    (tokens : List String) : List String :=
  if category == "mountains" then mountainsTokens polygon_count tokens
  else if category == "waves" then wavesTokens path_count tokens
  else if category == "compasses" then compassesTokens polygon_count circle_count
  else if category == "dividers" then dividersTokens polygon_count circle_count
  else if category == "badges" || category == "shields" then
    badgesTokens comment polygon_count circle_count
  else if category == "frames" then framesTokens comment polygon_count circle_count rect_count
  else if category == "blobs" then blobsTokens comment circle_count rect_count ellipse_count
  else if category == "lightning" then lightningTokens comment polygon_count
  else if category == "speech_bubbles" then speechTokens comment circle_count ellipse_count
  else if category == "accents" then accentsTokens circle_count rect_count line_count
  else if category == "sticker_outlines" then stickerTokens comment polygon_count
  else []

/-- `SVGAnalyzer.analyze_shape_characteristics`: the full ordered token
sequence produced for one asset. -/
def analyze_shape_characteristics (comment : Option String) (root : Option SvgNode)
    (category : String) : List String :=
  let t1 := annotTokens comment
  let polygon_count := count_elements root "polygon"
  let circle_count := count_elements root "circle"
  let path_count := count_elements root "path"
  let rect_count := count_elements root "rect"
  let ellipse_count := count_elements root "ellipse"
  let line_count := count_elements root "line"
  let t2 := t1 ++ heartsStarsTokens category circle_count polygon_count t1
  let total_shapes := polygon_count + circle_count + path_count + rect_count + ellipse_count
  let t3 := t2 ++ outlineTokens root (fill_none_count root) total_shapes t2
  t3 ++ categoryTokens category comment polygon_count circle_count path_count
          rect_count ellipse_count line_count t3

/-! ## Name synthesis (`generate_descriptive_name`) -/

/-- The fixed `category_singular` table. -/
def categorySingular : List (String × String) :=
  [("hearts", "heart"), ("stars", "star"), ("sparkles", "sparkle"),
   ("blobs", "blob"), ("mountains", "mountain"), ("waves", "wave"),
   ("compasses", "compass"), ("badges", "badge"), ("shields", "shield"),
   ("frames", "frame"), ("dividers", "divider"), ("lightning", "lightning"),
   ("speech_bubbles", "bubble"), ("accents", "accent"),
   ("sticker_outlines", "sticker"), ("sun_moon", "celestial")]

/-- Python `s.rstrip('s')`: drop every trailing `'s'`. -/
def rstripS (s : String) : String :=
  String.mk ((s.toList.reverse.dropWhile (fun c => c == 's')).reverse)

/-- `category_singular.get(category, category.rstrip('s'))`. -/
def baseWord (category : String) : String :=
  match categorySingular.find? (fun p => p.1 == category) with
  | some p => p.2
  | none => rstripS category

/-- Order-preserving deduplication (the `seen` set of the source). -/
def dedupAux (seen : List String) : List String → List String
  | [] => []
  | t :: ts =>
    if seen.contains t then dedupAux seen ts
    else t :: dedupAux (t :: seen) ts

/-- `unique_tokens` of the source: first occurrences, in order. -/
def dedupTokens (l : List String) : List String :=
  dedupAux [] l

/-- `if len(unique_tokens) > 3: unique_tokens = unique_tokens[:3]`. -/
def truncate3 (l : List String) : List String :=
  if l.length > 3 then l.take 3 else l

/-- `'-'.join(parts)` on character lists. -/
def interDash : List (List Char) → List Char
  | [] => []
  | [p] => p
  | p :: q :: ps => p ++ '-' :: interDash (q :: ps)

/-- `SVGAnalyzer.generate_descriptive_name`, given the token sequence
produced by the analyzer: dedup, truncate to 3, append the singular
base, join with dashes, lower-case, sanitise, collapse, strip, add the
extension. -/
def generate_descriptive_name (category : String) (tokens : List String) : String :=
  let base := baseWord category
  let name_parts := if tokens.isEmpty then [base] else truncate3 (dedupTokens tokens) ++ [base]
  String.mk (cleanupD (interDash (name_parts.map String.toList))) ++ ".svg"

/-- Analysis followed by synthesis: the descriptive name of one asset. -/
def fullName (category : String) (comment : Option String) (root : Option SvgNode) : String :=
  generate_descriptive_name category (analyze_shape_characteristics comment root category)

/-! ## The closed category set (spec section 3: categories are a fixed
enumerated label set, not user-extensible at runtime) -/

/-- The closed set of categories the tool is written for (the keys of
`category_singular`, which cover every category with an inference
rule). -/
inductive Category where
  | hearts | stars | sparkles | blobs | mountains | waves | compasses | badges
  | shields | frames | dividers | lightning | speech_bubbles | accents
  | sticker_outlines | sun_moon
deriving DecidableEq

/-- The directory-name label of a category. -/
def Category.label : Category → String
  | .hearts => "hearts"
  | .stars => "stars"
  | .sparkles => "sparkles"
  | .blobs => "blobs"
  | .mountains => "mountains"
  | .waves => "waves"
  | .compasses => "compasses"
  | .badges => "badges"
  | .shields => "shields"
  | .frames => "frames"
  | .dividers => "dividers"
  | .lightning => "lightning"
  | .speech_bubbles => "speech_bubbles"
  | .accents => "accents"
  | .sticker_outlines => "sticker_outlines"
  | .sun_moon => "sun_moon"

/-! ## Collision resolution (`generate_rename_mapping`) -/

/-- `new_name[:-4]`: drop the four extension characters. -/
def dropLast4 (s : String) : String :=
  String.mk (s.toList.take (s.toList.length - 4))

/-- Read the per-key occurrence counter (`defaultdict(int)`: absent
keys read as zero). -/
def lookupCount (m : List (String × Nat)) (k : String) : Nat :=
  match m.find? (fun p => p.1 == k) with
  | some p => p.2
  | none => 0

/-- Increment the per-key occurrence counter. -/
def bump (m : List (String × Nat)) (k : String) : List (String × Nat) :=
  match m with
  | [] => [(k, 1)]
  | (k', v) :: rest =>
    if k' == k then (k', v + 1) :: rest else (k', v) :: bump rest k

/-- The name rewriting of the collision policy: the occurrence counted
`c` times before gets the `-v{c+1}` suffix when `c > 0`, and is left
unchanged on its first occurrence. -/
def suffixed (name : String) (c : Nat) : String :=
  if c > 0 then dropLast4 name ++ "-v" ++ toString (c + 1) ++ ".svg" else name

/-- One step of the collision resolver: the collision key is the
destination path string (`str(svg_path.parent / new_name)`), the
counter is read before suffixing and incremented under the *original*
key, exactly as in the source. -/
def resolveName (counter : List (String × Nat)) (dir name : String) :
    List (String × Nat) × String :=
  let key := dir ++ "/" ++ name
  (bump counter key, suffixed name (lookupCount counter key))

/-- The collision resolver over an ordered sequence of
(destination-directory, synthesized-name) pairs. -/
def resolveAll (counter : List (String × Nat)) : List (String × String) → List String
  | [] => []
  | (d, n) :: rest =>
    let r := resolveName counter d n
    r.2 :: resolveAll r.1 rest

/-- One catalog entry as fed by the walker: brand, category, original
file name, and the extracted content (comment, parse result). -/
structure CatalogEntry where
  brand : String
  category : String
  oldName : String
  comment : Option String
  root : Option SvgNode

/-- The recursion of `generate_rename_mapping` with an explicit
collision counter. -/
def genMapAux (counter : List (String × Nat)) :
    List CatalogEntry → List (String × String × String × String)
  | [] => []
  | e :: rest =>
    let nm := fullName e.category e.comment e.root
    let r := resolveName counter (e.brand ++ "/" ++ e.category) nm
    (e.brand, e.category, e.oldName, r.2) :: genMapAux r.1 rest

/-- `SVGRenamer.generate_rename_mapping`: the full rename mapping for a
catalog snapshot, collision counter seeded empty (a fresh
`defaultdict(int)` per run). -/
def generate_rename_mapping (entries : List CatalogEntry) :
    List (String × String × String × String) :=
  genMapAux [] entries

/-! ## Filesystem apply (`execute_rename`, non-dry-run path).  The
filesystem is modelled as the list of existing paths; `os.rename`
removes the source path and adds the destination path. -/

/-- Per-record outcome of the apply phase. -/
inductive ApplyOutcome where
  | renamed
  | skippedMissing
  | skippedExists
deriving DecidableEq

/-- The per-record apply contract: skip when the source is missing,
skip when the destination exists and differs from the source,
otherwise rename. -/
def applyRecord (fs : List String) (oldPath newPath : String) :
    List String × ApplyOutcome :=
  if !(fs.contains oldPath) then (fs, .skippedMissing)
  else if fs.contains newPath && !(oldPath == newPath) then (fs, .skippedExists)
  else ((fs.filter (fun p => !(p == oldPath))) ++ [newPath], .renamed)

/-- The apply loop of `execute_rename`: every record produces exactly
one outcome and the loop never aborts. -/
def execute_rename (fs : List String) : List (String × String) → List String × List ApplyOutcome
  | [] => (fs, [])
  | (o, n) :: rest =>
    let r := applyRecord fs o n
    let r2 := execute_rename r.1 rest
    (r2.1, r.2 :: r2.2)

/-! ## Spec-side comparison definitions -/

/-- Refinement rendering of the claim-C9 wording: the category label
with a (single) trailing pluralizing letter stripped. -/
def stripOneTrailingS (s : String) : String :=
  if s.toList.getLast? == some 's' then String.mk s.toList.dropLast else s

/-- Refinement rendering of the graceful-degradation wording of the
spec: the tokens driven solely by the category and the annotation
rules — rules 1 and 2 on the annotation, plus the category-specific
rules evaluated with every structural count at zero. -/
def annotationDrivenTokens (comment : Option String) (category : String) : List String :=
  annotTokens comment ++
  (if category == "waves" then
     (if (annotTokens comment).contains "outline" then ["line"] else [])
   else if category == "frames" then
     (if commentHas comment "corner" then ["corner"] else [])
   else if category == "blobs" then
     (if commentHas comment "asymmetric" then ["asymmetric"] else [])
   else if category == "lightning" then
     (if commentHas comment "zigzag" then ["zigzag"]
      else if commentHas comment "compact" then ["compact"]
      else [])
   else if category == "speech_bubbles" then
     (if commentHas comment "tail" then ["tail"] else [])
   else [])

/-- Every token constant the inference engine can ever append. -/
def vocab : List String :=
  ["double", "triple", "quad", "cluster"] ++ descriptors ++
  ["range", "dual", "single", "line", "ringed", "eight-point", "four-point",
   "dotted", "decorated", "scalloped", "hexagon", "octagon", "diamond",
   "star", "corner", "oval", "asymmetric", "zigzag", "compact", "thought",
   "cloud", "tail", "circle", "square"]

/-- Total dash count of a token sequence. -/
def dashSum (ts : List String) : Nat :=
  (ts.map (fun t => countDash t.toList)).sum

/-- Collision key of a (destination-directory, name) pair, the
destination path string. -/
def keyOf (p : String × String) : String :=
  p.1 ++ "/" ++ p.2

/-- Number of entries of `l` sharing the collision key `k`. -/
def countKey (k : String) (l : List (String × String)) : Nat :=
  (l.filter (fun p => keyOf p == k)).length

/-! ## Concrete assets used as test inputs -/

/-- A circle drawn without fill. -/
def circleFillNone : SvgNode := .elem "circle" [("fill", "none")] []

/-- A filled circle. -/
def circleFilled : SvgNode := .elem "circle" [("fill", "#f00")] []

/-- A bare polygon. -/
def polygonPlain : SvgNode := .elem "polygon" [] []

/-- The asset of the spec's hearts example: 5 circles (4 without
fill) and one polygon. -/
def rootHeartsExample : SvgNode :=
  .elem "svg" []
    [circleFillNone, circleFillNone, circleFillNone, circleFillNone,
     circleFilled, polygonPlain]

/-- An asset with exactly two filled circles. -/
def rootTwoCircles : SvgNode :=
  .elem "svg" [] [circleFilled, circleFilled]

/-- A compass-like asset with eight polygons and two circles. -/
def rootCompassEight : SvgNode :=
  .elem "svg" [] (List.replicate 8 polygonPlain ++ [circleFilled, circleFilled])

/-- A frame-like asset with eight polygons. -/
def rootEightPolygons : SvgNode :=
  .elem "svg" [] (List.replicate 8 polygonPlain)

end ShapeAssets

namespace ShapeAssets

/-! ## Generic lemmas about the sanitisation pipeline -/

/-- Bridging lemma: `List.contains` on strings decides membership. -/
theorem contains_eq_false_iff (l : List String) (x : String) :
    (l.contains x = false) ↔ x ∉ l := by
  rw [← Bool.not_eq_true, List.contains, List.elem_iff]

/-- Dash counting distributes over append. -/
theorem countDash_append (a b : List Char) :
    countDash (a ++ b) = countDash a + countDash b := by
  simp [countDash, List.filter_append]

/-- Dash counting over a leading dash. -/
theorem countDash_cons_dash (b : List Char) :
    countDash ('-' :: b) = countDash b + 1 := by
  simp [countDash, List.filter_cons]

/-- `splitDash` never returns the empty list. -/
theorem splitDash_ne_nil : ∀ l : List Char, splitDash l ≠ []
  | [] => by simp [splitDash]
  | c :: t => by
    simp only [splitDash]
    split
    · simp
    · cases h : splitDash t with
      | nil => simp
      | cons s ss => simp

/-- The number of dash-separated pieces is the dash count plus one. -/
theorem splitDash_length : ∀ l : List Char, (splitDash l).length = countDash l + 1
  | [] => by simp [splitDash, countDash]
  | c :: t => by
    simp only [splitDash]
    split
    · next hc =>
      rw [List.length_cons, splitDash_length t]
      have : c = '-' := by simpa using hc
      subst this
      rw [countDash_cons_dash]
    · next hc =>
      cases h : splitDash t with
      | nil => exact absurd h (splitDash_ne_nil t)
      | cons s ss =>
        have := splitDash_length t
        rw [h] at this
        simp only [List.length_cons] at this ⊢
        have hcount : countDash (c :: t) = countDash t := by
          simp [countDash, List.filter_cons, hc]
        omega

/-- Appending a dash and a further stem preserves the stem automaton. -/
theorem stemOkAux_append_dash (q : List Char) (hq : stemOkAux true q = true) :
    ∀ (p : List Char) (st : Bool), stemOkAux st p = true →
      stemOkAux st (p ++ '-' :: q) = true
  | [], st, h => by
    simp only [stemOkAux] at h
    simp only [List.nil_append, stemOkAux]
    have : st = false := by simpa using h
    subst this
    simpa using hq
  | c :: t, st, h => by
    simp only [stemOkAux] at h ⊢
    split at h
    · next hc =>
      rw [if_pos hc]
      simp only [Bool.and_eq_true] at h ⊢
      exact ⟨h.1, stemOkAux_append_dash q hq t true h.2⟩
    · next hc =>
      rw [if_neg hc]
      simp only [Bool.and_eq_true] at h ⊢
      exact ⟨h.1, stemOkAux_append_dash q hq t false h.2⟩

/-- A valid stem has no two consecutive dashes. -/
theorem noDD_of_stemOkAux : ∀ (l : List Char) (st : Bool), stemOkAux st l = true → noDD l = true
  | [], _, _ => rfl
  | [_], _, _ => rfl
  | c1 :: c2 :: t, st, h => by
    simp only [stemOkAux] at h
    simp only [noDD, Bool.and_eq_true]
    split at h
    · next hc1 =>
      simp only [Bool.and_eq_true] at h
      have h2 := h.2
      constructor
      · -- after a dash the next position requires a letter, so `c2 ≠ '-'`
        simp only [stemOkAux] at h2
        split at h2
        · simp only [Bool.and_eq_true] at h2
          simp at h2
        · next hc2 =>
          simp [hc2]
      · exact noDD_of_stemOkAux (c2 :: t) true h.2
    · next hc1 =>
      simp only [Bool.and_eq_true] at h
      refine ⟨by simp [show (c1 == '-') = false by simpa using hc1], ?_⟩
      exact noDD_of_stemOkAux (c2 :: t) false h.2

/-- Collapsing dash runs is the identity on dash-run-free lists. -/
theorem collapseD_eq_self : ∀ l : List Char, noDD l = true → collapseD l = l
  | [], _ => rfl
  | [_], _ => rfl
  | c1 :: c2 :: t, h => by
    simp only [noDD, Bool.and_eq_true, Bool.not_eq_true'] at h
    simp only [collapseD, h.1, Bool.false_eq_true, if_false]
    rw [collapseD_eq_self (c2 :: t) h.2]

/-- A valid stem does not start with a dash. -/
theorem stemOk_head_not_dash (c : Char) (t : List Char)
    (h : stemOkAux true (c :: t) = true) : (c == '-') = false := by
  simp only [stemOkAux] at h
  split at h
  · simp at h
  · next hc => simpa using hc

/-- A valid stem does not end with a dash. -/
theorem stemOk_last_not_dash : ∀ (l : List Char) (st : Bool) (c : Char),
    stemOkAux st l = true → l.getLast? = some c → (c == '-') = false
  | [], _, _, _, hl => by simp at hl
  | [c'], st, c, h, hl => by
    have : c' = c := by simpa using hl
    subst this
    simp only [stemOkAux] at h
    split at h
    · simp [stemOkAux] at h
    · next hc => simpa using hc
  | c1 :: c2 :: t, st, c, h, hl => by
    simp only [stemOkAux] at h
    rw [List.getLast?_cons_cons] at hl
    split at h
    · simp only [Bool.and_eq_true] at h
      exact stemOk_last_not_dash (c2 :: t) true c h.2 hl
    · simp only [Bool.and_eq_true] at h
      exact stemOk_last_not_dash (c2 :: t) false c h.2 hl

/-- Stripping edge dashes is the identity on valid stems. -/
theorem stripD_eq_self (l : List Char) (h : stemOk l = true) : stripD l = l := by
  unfold stripD
  cases hl : l with
  | nil => simp
  | cons c t =>
    rw [hl] at h
    have hc := stemOk_head_not_dash c t h
    have hd1 : List.dropWhile (fun ch => ch == '-') (c :: t) = c :: t :=
      List.dropWhile_cons_of_neg (by simp [hc])
    rw [hd1]
    cases hr : (c :: t).reverse with
    | nil => simp at hr
    | cons c' t' =>
      have hlast : (c :: t).getLast? = some c' := by
        rw [← List.head?_reverse, hr, List.head?_cons]
      have hc' := stemOk_last_not_dash (c :: t) true c' h hlast
      have hd2 : List.dropWhile (fun ch => ch == '-') (c' :: t') = c' :: t' :=
        List.dropWhile_cons_of_neg (by simp [hc'])
      rw [hd2, ← hr, List.reverse_reverse]

end ShapeAssets

namespace ShapeAssets

/-! ## Lemmas about joining name parts -/

/-- Joining valid stems with dashes yields a valid stem. -/
theorem stemOk_interDash : ∀ ps : List (List Char), ps ≠ [] →
    (∀ p ∈ ps, stemOk p = true) → stemOk (interDash ps) = true
  | [], h, _ => absurd rfl h
  | [p], _, hall => by
    simpa [interDash] using hall p (by simp)
  | p :: q :: ps, _, hall => by
    have hrest : stemOk (interDash (q :: ps)) = true :=
      stemOk_interDash (q :: ps) (by simp) (fun r hr => hall r (List.mem_cons_of_mem p hr))
    simp only [interDash]
    exact stemOkAux_append_dash _ hrest p true (hall p (by simp))

/-- Dash count of a dash-join: one dash per boundary plus the dashes
inside the parts. -/
theorem countDash_interDash : ∀ ps : List (List Char), ps ≠ [] →
    countDash (interDash ps) + 1 = ps.length + (ps.map countDash).sum
  | [], h => absurd rfl h
  | [p], _ => by simp [interDash]; omega
  | p :: q :: ps, _ => by
    have ih := countDash_interDash (q :: ps) (by simp)
    simp only [interDash, countDash_append, countDash_cons_dash, List.length_cons,
      List.map_cons, List.sum_cons] at ih ⊢
    omega

/-- A map whose function fixes the dash distributes into the parts of a
dash-join. -/
theorem map_interDash (f : Char → Char) (hf : f '-' = '-') :
    ∀ ps : List (List Char), (interDash ps).map f = interDash (ps.map (List.map f))
  | [] => by simp [interDash]
  | [p] => by simp [interDash]
  | p :: q :: ps => by
    simp only [interDash, List.map_append, List.map_cons]
    rw [map_interDash f hf (q :: ps)]
    simp [interDash, hf]

/-- A list of parts individually fixed by a map is fixed by it. -/
theorem map_parts_eq_self (g : List Char → List Char) :
    ∀ ps : List (List Char), (∀ p ∈ ps, g p = p) → ps.map g = ps
  | [], _ => rfl
  | p :: ps, h => by
    rw [List.map_cons, h p (by simp), map_parts_eq_self g ps (fun r hr => h r (List.mem_cons_of_mem p hr))]

/-- The full clean-up pipeline is the identity on a dash-join of valid,
already-clean stems. -/
theorem cleanupD_interDash (ps : List (List Char)) (hne : ps ≠ [])
    (hok : ∀ p ∈ ps, stemOk p = true)
    (hclean : ∀ p ∈ ps, p.map cleanChar = p) :
    cleanupD (interDash ps) = interDash ps := by
  have hstem : stemOk (interDash ps) = true := stemOk_interDash ps hne hok
  unfold cleanupD
  rw [map_interDash cleanChar (by decide) ps, map_parts_eq_self _ ps hclean,
    collapseD_eq_self _ (noDD_of_stemOkAux _ true hstem), stripD_eq_self _ hstem]

/-! ## Lemmas about deduplication and truncation -/

/-- Deduplication only keeps elements of the input. -/
theorem mem_dedupAux : ∀ (l seen : List String) (t : String), t ∈ dedupAux seen l → t ∈ l
  | [], _, _, h => by simp [dedupAux] at h
  | x :: xs, seen, t, h => by
    simp only [dedupAux] at h
    split at h
    · exact List.mem_cons_of_mem x (mem_dedupAux xs seen t h)
    · rcases List.mem_cons.mp h with h1 | h2
      · simp [h1]
      · exact List.mem_cons_of_mem x (mem_dedupAux xs (x :: seen) t h2)

/-- Deduplication does not increase the dash count. -/
theorem dashSum_dedupAux : ∀ (l seen : List String), dashSum (dedupAux seen l) ≤ dashSum l
  | [], _ => Nat.le_refl _
  | x :: xs, seen => by
    simp only [dedupAux]
    split
    · have := dashSum_dedupAux xs seen
      simp only [dashSum, List.map_cons, List.sum_cons] at this ⊢
      omega
    · have := dashSum_dedupAux xs (x :: seen)
      simp only [dashSum, List.map_cons, List.sum_cons] at this ⊢
      omega

/-- Taking a prefix does not increase the dash count. -/
theorem dashSum_take : ∀ (n : Nat) (l : List String), dashSum (l.take n) ≤ dashSum l
  | 0, _ => by simp [dashSum]
  | _ + 1, [] => by simp [dashSum]
  | n + 1, x :: xs => by
    have := dashSum_take n xs
    simp only [List.take_succ_cons, dashSum, List.map_cons, List.sum_cons] at this ⊢
    omega

/-- Truncation only keeps elements of the input. -/
theorem mem_truncate3 (l : List String) (t : String) (h : t ∈ truncate3 l) : t ∈ l := by
  unfold truncate3 at h
  split at h
  · exact List.mem_of_mem_take h
  · exact h

/-- Truncation does not increase the dash count. -/
theorem dashSum_truncate3 (l : List String) : dashSum (truncate3 l) ≤ dashSum l := by
  unfold truncate3
  split
  · exact dashSum_take 3 l
  · exact Nat.le_refl _

/-- The truncated token list has at most three entries. -/
theorem length_truncate3 (l : List String) : (truncate3 l).length ≤ 3 := by
  unfold truncate3
  split
  · simp [List.length_take]
  · omega

end ShapeAssets

namespace ShapeAssets

/-! ## Validity of synthesized names -/

/-- Every token constant the engine can append is a valid stem, is
fixed by the clean-up map, and contains at most one dash. -/
theorem vocab_facts : ∀ t ∈ vocab,
    stemOk t.toList = true ∧ t.toList.map cleanChar = t.toList ∧ countDash t.toList ≤ 1 := by
  decide

/-- Every singular base word of the closed category set is a valid,
dash-free stem fixed by the clean-up map. -/
theorem base_facts : ∀ c : Category,
    stemOk (baseWord c.label).toList = true ∧
    (baseWord c.label).toList.map cleanChar = (baseWord c.label).toList ∧
    countDash (baseWord c.label).toList = 0 := by
  intro c
  cases c <;> exact (by decide)

/-- Character list of a synthesized name: the joined stem followed by
the four extension characters. -/
theorem toList_mk_append_svg (L : List Char) :
    (String.mk L ++ ".svg").toList = L ++ ['.', 's', 'v', 'g'] := rfl

/-- A name assembled from at most four valid clean parts holding at
most one internal dash in total is valid, short, and non-empty. -/
theorem name_of_good_parts (parts : List String) (hne : parts ≠ [])
    (hper : ∀ p ∈ parts, stemOk p.toList = true ∧ p.toList.map cleanChar = p.toList)
    (hlen : parts.length ≤ 4)
    (hds : (parts.map (fun p => countDash p.toList)).sum ≤ 1) :
    svgNameOk (String.mk (cleanupD (interDash (parts.map String.toList))) ++ ".svg") = true ∧
    segCount (String.mk (cleanupD (interDash (parts.map String.toList))) ++ ".svg") ≤ 5 ∧
    ((String.mk (cleanupD (interDash (parts.map String.toList))) ++ ".svg") == "") = false := by
  have hpl : parts.map String.toList ≠ [] := by
    intro h
    exact hne (List.map_eq_nil_iff.mp h)
  have hok : ∀ p ∈ parts.map String.toList, stemOk p = true := by
    intro p hp
    rcases List.mem_map.mp hp with ⟨q, hq, rfl⟩
    exact (hper q hq).1
  have hcl : ∀ p ∈ parts.map String.toList, p.map cleanChar = p := by
    intro p hp
    rcases List.mem_map.mp hp with ⟨q, hq, rfl⟩
    exact (hper q hq).2
  have hclean : cleanupD (interDash (parts.map String.toList)) = interDash (parts.map String.toList) :=
    cleanupD_interDash _ hpl hok hcl
  have hstem : stemOk (interDash (parts.map String.toList)) = true :=
    stemOk_interDash _ hpl hok
  rw [hclean]
  have htl := toList_mk_append_svg (interDash (parts.map String.toList))
  have hlm : (interDash (parts.map String.toList) ++ ['.', 's', 'v', 'g']).length - 4
      = (interDash (parts.map String.toList)).length := by
    simp only [List.length_append, List.length_cons, List.length_nil]
    omega
  refine ⟨?_, ?_, ?_⟩
  · unfold svgNameOk stemOf
    rw [htl, hlm, List.drop_left, List.take_left]
    simp [hstem]
  · unfold segCount stemOf
    rw [htl, hlm, List.take_left, splitDash_length]
    have hcd := countDash_interDash (parts.map String.toList) hpl
    have hsum : ((parts.map String.toList).map countDash).sum
        = (parts.map (fun p => countDash p.toList)).sum := by
      rw [List.map_map]
      rfl
    rw [List.length_map] at hcd
    omega
  · have hneq : (String.mk (interDash (parts.map String.toList)) ++ ".svg") ≠ "" := by
      intro h
      have h2 := congrArg String.toList h
      rw [htl] at h2
      simp at h2
    exact beq_eq_false_iff_ne.mpr hneq

/-- The synthesizer applied to any token sequence drawn from the
engine's vocabulary with at most one internal dash in total produces a
valid, non-empty name of at most five hyphen-separated segments, and
falls back to the bare base word on an empty token sequence. -/
theorem generate_props (category : String) (tokens : List String)
    (hb1 : stemOk (baseWord category).toList = true)
    (hbf : (baseWord category).toList.map cleanChar = (baseWord category).toList)
    (hb0 : countDash (baseWord category).toList = 0)
    (hv : ∀ t ∈ tokens, t ∈ vocab) (hd : dashSum tokens ≤ 1) :
    svgNameOk (generate_descriptive_name category tokens) = true ∧
    segCount (generate_descriptive_name category tokens) ≤ 5 ∧
    ((generate_descriptive_name category tokens) == "") = false ∧
    (tokens.isEmpty = true →
      generate_descriptive_name category tokens = baseWord category ++ ".svg") := by
  by_cases he : tokens.isEmpty = true
  · have hgen : generate_descriptive_name category tokens
        = String.mk (cleanupD (interDash ([baseWord category].map String.toList))) ++ ".svg" := by
      unfold generate_descriptive_name
      rw [he]
      simp
    have hgood := name_of_good_parts [baseWord category] (by simp)
      (by
        intro p hp
        have : p = baseWord category := by simpa using hp
        subst this
        exact ⟨hb1, hbf⟩)
      (by simp)
      (by
        simp only [List.map_cons, List.map_nil, List.sum_cons, List.sum_nil]
        have hb0' : countDash (baseWord category).data = 0 := hb0
        omega)
    have hfall : generate_descriptive_name category tokens = baseWord category ++ ".svg" := by
      rw [hgen]
      have h2 : cleanupD ((baseWord category).toList) = (baseWord category).toList := by
        have h3 := cleanupD_interDash [(baseWord category).toList] (by simp)
          (by intro p hp; simp only [List.mem_singleton] at hp; subst hp; exact hb1)
          (by intro p hp; simp only [List.mem_singleton] at hp; subst hp; exact hbf)
        simpa [interDash] using h3
      have h1 : interDash ([baseWord category].map String.toList) = (baseWord category).toList := rfl
      rw [h1, h2]
      rfl
    exact ⟨by rw [hgen]; exact hgood.1, by rw [hgen]; exact hgood.2.1,
      by rw [hgen]; exact hgood.2.2, fun _ => hfall⟩
  · have hgen : generate_descriptive_name category tokens
        = String.mk (cleanupD (interDash
            ((truncate3 (dedupTokens tokens) ++ [baseWord category]).map String.toList))) ++ ".svg" := by
      have hf : tokens.isEmpty = false := by
        cases h : tokens.isEmpty
        · rfl
        · exact absurd h he
      simp [generate_descriptive_name, hf]
    have hparts : ∀ p ∈ truncate3 (dedupTokens tokens) ++ [baseWord category],
        p = baseWord category ∨ p ∈ tokens := by
      intro p hp
      rcases List.mem_append.mp hp with h1 | h2
      · exact Or.inr (mem_dedupAux tokens [] p (mem_truncate3 _ _ h1))
      · exact Or.inl (by simpa using h2)
    have hgood := name_of_good_parts (truncate3 (dedupTokens tokens) ++ [baseWord category])
      (by simp)
      (by
        intro p hp
        rcases hparts p hp with h | h
        · subst h; exact ⟨hb1, hbf⟩
        · have := vocab_facts p (hv p h)
          exact ⟨this.1, this.2.1⟩)
      (by
        have := length_truncate3 (dedupTokens tokens)
        simp only [List.length_append, List.length_cons, List.length_nil]
        omega)
      (by
        have h1 : dashSum (truncate3 (dedupTokens tokens)) ≤ dashSum tokens :=
          le_trans (dashSum_truncate3 _) (dashSum_dedupAux tokens [])
        simp only [dashSum] at h1 hd
        rw [List.map_append, List.sum_append]
        simp only [List.map_cons, List.map_nil, List.sum_cons, List.sum_nil, hb0]
        omega)
    exact ⟨by rw [hgen]; exact hgood.1, by rw [hgen]; exact hgood.2.1,
      by rw [hgen]; exact hgood.2.2, fun hc => absurd hc he⟩

end ShapeAssets

namespace ShapeAssets

/-! ## The tokens the inference engine can emit -/

/-- Dash totals add over append. -/
theorem dashSum_append (a b : List String) : dashSum (a ++ b) = dashSum a + dashSum b := by
  simp [dashSum]

/-- Filtering does not increase the dash total. -/
theorem dashSum_filter (q : String → Bool) :
    ∀ l : List String, dashSum (l.filter q) ≤ dashSum l
  | [] => Nat.le_refl _
  | x :: xs => by
    have := dashSum_filter q xs
    simp only [List.filter_cons]
    split
    · simp only [dashSum, List.map_cons, List.sum_cons] at this ⊢
      omega
    · simp only [dashSum, List.map_cons, List.sum_cons] at this ⊢
      omega

/-- Rule 1 only emits vocabulary tokens. -/
theorem mem_multTokens (cl : String) (t : String) (h : t ∈ multTokens cl) : t ∈ vocab := by
  unfold multTokens at h
  split_ifs at h <;> simp_all
  all_goals decide

/-- Rule 1 emits no dashes. -/
theorem dash_multTokens (cl : String) : dashSum (multTokens cl) = 0 := by
  unfold multTokens
  split_ifs <;> decide

/-- Rules 1 and 2 only emit vocabulary tokens. -/
theorem mem_annotTokens (c : Option String) (t : String) (h : t ∈ annotTokens c) : t ∈ vocab := by
  unfold annotTokens at h
  cases c with
  | none => simp at h
  | some s =>
    simp only at h
    split_ifs at h
    · simp at h
    · rcases List.mem_append.mp h with h1 | h2
      · exact mem_multTokens _ _ h1
      · exact (by decide : ∀ x ∈ descriptors, x ∈ vocab) t (List.mem_of_mem_filter h2)

/-- Rules 1 and 2 emit no dashes. -/
theorem dash_annotTokens (c : Option String) : dashSum (annotTokens c) = 0 := by
  unfold annotTokens
  cases c with
  | none => rfl
  | some s =>
    simp only
    split_ifs
    · rfl
    · rw [dashSum_append, dash_multTokens]
      have h1 := dashSum_filter (fun d => substr (lowerStr s) d) descriptors
      have h2 : dashSum descriptors = 0 := by decide
      omega

/-- Rule 3 only emits vocabulary tokens. -/
theorem mem_heartsStars (cat : String) (cc pc : Nat) (tk : List String) (t : String)
    (h : t ∈ heartsStarsTokens cat cc pc tk) : t ∈ vocab := by
  unfold heartsStarsTokens at h
  split_ifs at h <;> simp_all <;> decide

/-- Rule 3 emits no dashes. -/
theorem dash_heartsStars (cat : String) (cc pc : Nat) (tk : List String) :
    dashSum (heartsStarsTokens cat cc pc tk) = 0 := by
  unfold heartsStarsTokens
  split_ifs <;> decide

/-- Rule 4 only emits vocabulary tokens. -/
theorem mem_outlineTokens (root : Option SvgNode) (fn tot : Nat) (tk : List String) (t : String)
    (h : t ∈ outlineTokens root fn tot tk) : t ∈ vocab := by
  cases root with
  | none => simp [outlineTokens] at h
  | some r =>
    simp only [outlineTokens] at h
    split_ifs at h <;> simp_all <;> decide

/-- Rule 4 emits no dashes. -/
theorem dash_outlineTokens (root : Option SvgNode) (fn tot : Nat) (tk : List String) :
    dashSum (outlineTokens root fn tot tk) = 0 := by
  cases root with
  | none => rfl
  | some r =>
    simp only [outlineTokens]
    split_ifs <;> decide

/-- The `mountains` branch only emits vocabulary tokens, none with a dash. -/
theorem mountains_facts (pc : Nat) (tk : List String) :
    (∀ t ∈ mountainsTokens pc tk, t ∈ vocab) ∧ dashSum (mountainsTokens pc tk) = 0 := by
  unfold mountainsTokens
  split_ifs <;> exact ⟨by decide, by decide⟩

/-- The `waves` branch only emits vocabulary tokens, none with a dash. -/
theorem waves_facts (pathc : Nat) (tk : List String) :
    (∀ t ∈ wavesTokens pathc tk, t ∈ vocab) ∧ dashSum (wavesTokens pathc tk) = 0 := by
  unfold wavesTokens
  split_ifs <;> exact ⟨by decide, by decide⟩

/-- The `compasses` branch only emits vocabulary tokens, at most one
dash (the two point tokens are mutually exclusive). -/
theorem compasses_facts (pc cc : Nat) :
    (∀ t ∈ compassesTokens pc cc, t ∈ vocab) ∧ dashSum (compassesTokens pc cc) ≤ 1 := by
  unfold compassesTokens
  split_ifs <;> exact ⟨by decide, by decide⟩

/-- The `dividers` branch only emits vocabulary tokens, none with a dash. -/
theorem dividers_facts (pc cc : Nat) :
    (∀ t ∈ dividersTokens pc cc, t ∈ vocab) ∧ dashSum (dividersTokens pc cc) = 0 := by
  unfold dividersTokens
  split_ifs <;> exact ⟨by decide, by decide⟩

/-- The `badges`/`shields` branch only emits vocabulary tokens, none
with a dash. -/
theorem badges_facts (c : Option String) (pc cc : Nat) :
    (∀ t ∈ badgesTokens c pc cc, t ∈ vocab) ∧ dashSum (badgesTokens c pc cc) = 0 := by
  unfold badgesTokens
  split_ifs <;> exact ⟨by decide, by decide⟩

/-- The `frames` branch only emits vocabulary tokens, none with a dash. -/
theorem frames_facts (c : Option String) (pc cc rc : Nat) :
    (∀ t ∈ framesTokens c pc cc rc, t ∈ vocab) ∧ dashSum (framesTokens c pc cc rc) = 0 := by
  unfold framesTokens
  split_ifs <;> exact ⟨by decide, by decide⟩

/-- The `blobs` branch only emits vocabulary tokens, none with a dash. -/
theorem blobs_facts (c : Option String) (cc rc ec : Nat) :
    (∀ t ∈ blobsTokens c cc rc ec, t ∈ vocab) ∧ dashSum (blobsTokens c cc rc ec) = 0 := by
  unfold blobsTokens
  split_ifs <;> exact ⟨by decide, by decide⟩

/-- The `lightning` branch only emits vocabulary tokens, none with a dash. -/
theorem lightning_facts (c : Option String) (pc : Nat) :
    (∀ t ∈ lightningTokens c pc, t ∈ vocab) ∧ dashSum (lightningTokens c pc) = 0 := by
  unfold lightningTokens
  split_ifs <;> exact ⟨by decide, by decide⟩

/-- The `speech_bubbles` branch only emits vocabulary tokens, none with
a dash. -/
theorem speech_facts (c : Option String) (cc ec : Nat) :
    (∀ t ∈ speechTokens c cc ec, t ∈ vocab) ∧ dashSum (speechTokens c cc ec) = 0 := by
  unfold speechTokens
  split_ifs <;> exact ⟨by decide, by decide⟩

/-- The `accents` branch only emits vocabulary tokens, none with a dash. -/
theorem accents_facts (cc rc lc : Nat) :
    (∀ t ∈ accentsTokens cc rc lc, t ∈ vocab) ∧ dashSum (accentsTokens cc rc lc) = 0 := by
  unfold accentsTokens
  split_ifs <;> exact ⟨by decide, by decide⟩

/-- The `sticker_outlines` branch only emits vocabulary tokens, none
with a dash. -/
theorem sticker_facts (c : Option String) (pc : Nat) :
    (∀ t ∈ stickerTokens c pc, t ∈ vocab) ∧ dashSum (stickerTokens c pc) = 0 := by
  unfold stickerTokens
  split_ifs <;> exact ⟨by decide, by decide⟩

/-- The rule-5 dispatch always lands in one of the twelve branch
values. -/
theorem categoryTokens_eq_cases (cat : String) (c : Option String)
    (pc cc pathc rc ec lc : Nat) (tk : List String) :
    categoryTokens cat c pc cc pathc rc ec lc tk = mountainsTokens pc tk ∨
    categoryTokens cat c pc cc pathc rc ec lc tk = wavesTokens pathc tk ∨
    categoryTokens cat c pc cc pathc rc ec lc tk = compassesTokens pc cc ∨
    categoryTokens cat c pc cc pathc rc ec lc tk = dividersTokens pc cc ∨
    categoryTokens cat c pc cc pathc rc ec lc tk = badgesTokens c pc cc ∨
    categoryTokens cat c pc cc pathc rc ec lc tk = framesTokens c pc cc rc ∨
    categoryTokens cat c pc cc pathc rc ec lc tk = blobsTokens c cc rc ec ∨
    categoryTokens cat c pc cc pathc rc ec lc tk = lightningTokens c pc ∨
    categoryTokens cat c pc cc pathc rc ec lc tk = speechTokens c cc ec ∨
    categoryTokens cat c pc cc pathc rc ec lc tk = accentsTokens cc rc lc ∨
    categoryTokens cat c pc cc pathc rc ec lc tk = stickerTokens c pc ∨
    categoryTokens cat c pc cc pathc rc ec lc tk = [] := by
  unfold categoryTokens
  by_cases h1 : (cat == "mountains") = true
  · rw [if_pos h1]; exact Or.inl rfl
  · rw [if_neg h1]
    by_cases h2 : (cat == "waves") = true
    · rw [if_pos h2]; exact Or.inr (Or.inl rfl)
    · rw [if_neg h2]
      by_cases h3 : (cat == "compasses") = true
      · rw [if_pos h3]; exact Or.inr (Or.inr (Or.inl rfl))
      · rw [if_neg h3]
        by_cases h4 : (cat == "dividers") = true
        · rw [if_pos h4]; exact Or.inr (Or.inr (Or.inr (Or.inl rfl)))
        · rw [if_neg h4]
          by_cases h5 : (cat == "badges" || cat == "shields") = true
          · rw [if_pos h5]; exact Or.inr (Or.inr (Or.inr (Or.inr (Or.inl rfl))))
          · rw [if_neg h5]
            by_cases h6 : (cat == "frames") = true
            · rw [if_pos h6]
              exact Or.inr (Or.inr (Or.inr (Or.inr (Or.inr (Or.inl rfl)))))
            · rw [if_neg h6]
              by_cases h7 : (cat == "blobs") = true
              · rw [if_pos h7]
                exact Or.inr (Or.inr (Or.inr (Or.inr (Or.inr (Or.inr (Or.inl rfl))))))
              · rw [if_neg h7]
                by_cases h8 : (cat == "lightning") = true
                · rw [if_pos h8]
                  exact Or.inr (Or.inr (Or.inr (Or.inr (Or.inr (Or.inr (Or.inr
                    (Or.inl rfl)))))))
                · rw [if_neg h8]
                  by_cases h9 : (cat == "speech_bubbles") = true
                  · rw [if_pos h9]
                    exact Or.inr (Or.inr (Or.inr (Or.inr (Or.inr (Or.inr (Or.inr
                      (Or.inr (Or.inl rfl))))))))
                  · rw [if_neg h9]
                    by_cases h10 : (cat == "accents") = true
                    · rw [if_pos h10]
                      exact Or.inr (Or.inr (Or.inr (Or.inr (Or.inr (Or.inr (Or.inr
                        (Or.inr (Or.inr (Or.inl rfl)))))))))
                    · rw [if_neg h10]
                      by_cases h11 : (cat == "sticker_outlines") = true
                      · rw [if_pos h11]
                        exact Or.inr (Or.inr (Or.inr (Or.inr (Or.inr (Or.inr (Or.inr
                          (Or.inr (Or.inr (Or.inr (Or.inl rfl))))))))))
                      · rw [if_neg h11]
                        exact Or.inr (Or.inr (Or.inr (Or.inr (Or.inr (Or.inr (Or.inr
                          (Or.inr (Or.inr (Or.inr (Or.inr rfl))))))))))

/-- Rule 5 only emits vocabulary tokens. -/
theorem mem_categoryTokens (cat : String) (c : Option String)
    (pc cc pathc rc ec lc : Nat) (tk : List String) (t : String)
    (h : t ∈ categoryTokens cat c pc cc pathc rc ec lc tk) : t ∈ vocab := by
  rcases categoryTokens_eq_cases cat c pc cc pathc rc ec lc tk with
    he | he | he | he | he | he | he | he | he | he | he | he
  all_goals rw [he] at h
  · exact (mountains_facts pc tk).1 t h
  · exact (waves_facts pathc tk).1 t h
  · exact (compasses_facts pc cc).1 t h
  · exact (dividers_facts pc cc).1 t h
  · exact (badges_facts c pc cc).1 t h
  · exact (frames_facts c pc cc rc).1 t h
  · exact (blobs_facts c cc rc ec).1 t h
  · exact (lightning_facts c pc).1 t h
  · exact (speech_facts c cc ec).1 t h
  · exact (accents_facts cc rc lc).1 t h
  · exact (sticker_facts c pc).1 t h
  · simp at h

/-- Rule 5 emits at most one dash (only via the compass point tokens). -/
theorem dash_categoryTokens (cat : String) (c : Option String)
    (pc cc pathc rc ec lc : Nat) (tk : List String) :
    dashSum (categoryTokens cat c pc cc pathc rc ec lc tk) ≤ 1 := by
  rcases categoryTokens_eq_cases cat c pc cc pathc rc ec lc tk with
    he | he | he | he | he | he | he | he | he | he | he | he
  all_goals rw [he]
  · exact Nat.le_of_eq (mountains_facts pc tk).2 |>.trans (by omega)
  · exact Nat.le_of_eq (waves_facts pathc tk).2 |>.trans (by omega)
  · exact (compasses_facts pc cc).2
  · exact Nat.le_of_eq (dividers_facts pc cc).2 |>.trans (by omega)
  · exact Nat.le_of_eq (badges_facts c pc cc).2 |>.trans (by omega)
  · exact Nat.le_of_eq (frames_facts c pc cc rc).2 |>.trans (by omega)
  · exact Nat.le_of_eq (blobs_facts c cc rc ec).2 |>.trans (by omega)
  · exact Nat.le_of_eq (lightning_facts c pc).2 |>.trans (by omega)
  · exact Nat.le_of_eq (speech_facts c cc ec).2 |>.trans (by omega)
  · exact Nat.le_of_eq (accents_facts cc rc lc).2 |>.trans (by omega)
  · exact Nat.le_of_eq (sticker_facts c pc).2 |>.trans (by omega)
  · decide

/-- Unfolding equation for the analyzer: the four rule blocks in
source order, each later block seeing the tokens accumulated so far. -/
theorem analyze_eq (comment : Option String) (root : Option SvgNode) (cat : String) :
    analyze_shape_characteristics comment root cat =
      annotTokens comment ++
      heartsStarsTokens cat (count_elements root "circle") (count_elements root "polygon")
        (annotTokens comment) ++
      outlineTokens root (fill_none_count root)
        (count_elements root "polygon" + count_elements root "circle" +
          count_elements root "path" + count_elements root "rect" +
          count_elements root "ellipse")
        (annotTokens comment ++
          heartsStarsTokens cat (count_elements root "circle") (count_elements root "polygon")
            (annotTokens comment)) ++
      categoryTokens cat comment (count_elements root "polygon") (count_elements root "circle")
        (count_elements root "path") (count_elements root "rect")
        (count_elements root "ellipse") (count_elements root "line")
        (annotTokens comment ++
          heartsStarsTokens cat (count_elements root "circle") (count_elements root "polygon")
            (annotTokens comment) ++
          outlineTokens root (fill_none_count root)
            (count_elements root "polygon" + count_elements root "circle" +
              count_elements root "path" + count_elements root "rect" +
              count_elements root "ellipse")
            (annotTokens comment ++
              heartsStarsTokens cat (count_elements root "circle")
                (count_elements root "polygon") (annotTokens comment))) := rfl

/-- Every token the engine emits is drawn from the fixed vocabulary. -/
theorem mem_analyze (comment : Option String) (root : Option SvgNode) (cat : String)
    (t : String) (h : t ∈ analyze_shape_characteristics comment root cat) : t ∈ vocab := by
  rw [analyze_eq] at h
  rcases List.mem_append.mp h with h' | h4
  · rcases List.mem_append.mp h' with h'' | h3
    · rcases List.mem_append.mp h'' with h1 | h2
      · exact mem_annotTokens _ _ h1
      · exact mem_heartsStars _ _ _ _ _ h2
    · exact mem_outlineTokens _ _ _ _ _ h3
  · exact mem_categoryTokens _ _ _ _ _ _ _ _ _ _ h4

/-- The engine's whole token sequence holds at most one dash. -/
theorem dash_analyze (comment : Option String) (root : Option SvgNode) (cat : String) :
    dashSum (analyze_shape_characteristics comment root cat) ≤ 1 := by
  rw [analyze_eq, dashSum_append, dashSum_append, dashSum_append]
  have h1 := dash_annotTokens comment
  have h2 := dash_heartsStars cat (count_elements root "circle") (count_elements root "polygon")
    (annotTokens comment)
  have h3 := dash_outlineTokens root (fill_none_count root)
    (count_elements root "polygon" + count_elements root "circle" + count_elements root "path" +
      count_elements root "rect" + count_elements root "ellipse")
    (annotTokens comment ++ heartsStarsTokens cat (count_elements root "circle")
      (count_elements root "polygon") (annotTokens comment))
  have h4 := dash_categoryTokens cat comment (count_elements root "polygon")
    (count_elements root "circle") (count_elements root "path") (count_elements root "rect")
    (count_elements root "ellipse") (count_elements root "line")
    (annotTokens comment ++ heartsStarsTokens cat (count_elements root "circle")
      (count_elements root "polygon") (annotTokens comment) ++
      outlineTokens root (fill_none_count root)
        (count_elements root "polygon" + count_elements root "circle" +
          count_elements root "path" + count_elements root "rect" +
          count_elements root "ellipse")
        (annotTokens comment ++ heartsStarsTokens cat (count_elements root "circle")
          (count_elements root "polygon") (annotTokens comment)))
  omega

/-- The full pipeline produces, for every category of the closed set
and every extracted content, a valid non-empty name of at most five
segments, falling back to the bare base word on an empty token list. -/
theorem fullName_valid (cat : Category) (comment : Option String) (root : Option SvgNode) :
    svgNameOk (fullName cat.label comment root) = true ∧
    segCount (fullName cat.label comment root) ≤ 5 ∧
    ((fullName cat.label comment root) == "") = false ∧
    ((analyze_shape_characteristics comment root cat.label).isEmpty = true →
      fullName cat.label comment root = baseWord cat.label ++ ".svg") := by
  have hb := base_facts cat
  exact generate_props cat.label _ hb.1 hb.2.1 hb.2.2
    (fun t ht => mem_analyze _ _ _ t ht) (dash_analyze _ _ _)

end ShapeAssets

namespace ShapeAssets

/-! ## Behaviour under an absent annotation and a failed parse -/

/-- Rule 4 emits either exactly the outline token or nothing. -/
theorem outline_cases (root : Option SvgNode) (fn tot : Nat) (tk : List String) :
    outlineTokens root fn tot tk = ["outline"] ∨ outlineTokens root fn tot tk = [] := by
  cases root with
  | none => exact Or.inr rfl
  | some r =>
    simp only [outlineTokens]
    split_ifs <;> simp

/-- With no annotation the badges/shields branch can only scallop. -/
theorem badges_none_cases (pc cc : Nat) :
    badgesTokens none pc cc = ["scalloped"] ∨ badgesTokens none pc cc = [] := by
  unfold badgesTokens
  split_ifs <;> simp_all [commentHas]

/-- With no annotation the frames branch never emits `corner`. -/
theorem frames_none_sub (pc cc rc : Nat) (t : String) (h : t ∈ framesTokens none pc cc rc) :
    t = "double" ∨ t = "hexagon" ∨ t = "octagon" := by
  unfold framesTokens at h
  simp only [commentHas] at h
  split_ifs at h <;> simp_all
  all_goals tauto

/-- With no annotation the blobs branch never emits `asymmetric`. -/
theorem blobs_none_sub (cc rc ec : Nat) (t : String) (h : t ∈ blobsTokens none cc rc ec) :
    t = "rounded" ∨ t = "oval" := by
  unfold blobsTokens at h
  simp only [commentHas] at h
  split_ifs at h <;> simp_all

/-- With no annotation the lightning branch never emits `zigzag` or
`compact`. -/
theorem lightning_none_cases (pc : Nat) :
    lightningTokens none pc = ["double"] ∨ lightningTokens none pc = [] := by
  unfold lightningTokens
  simp only [commentHas]
  split_ifs <;> simp_all

/-- With no annotation the speech-bubbles branch never emits `tail`. -/
theorem speech_none_sub (cc ec : Nat) (t : String) (h : t ∈ speechTokens none cc ec) :
    t = "thought" ∨ t = "cloud" := by
  unfold speechTokens at h
  simp only [commentHas] at h
  split_ifs at h <;> simp_all

/-- With no annotation the sticker branch emits nothing at all. -/
theorem sticker_none_eq (pc : Nat) : stickerTokens none pc = [] := by
  unfold stickerTokens
  split_ifs <;> simp_all [commentHas]

/-- Rules 1 and 2 only emit multiplicity words or adjectives. -/
theorem annot_tokens_sub (c : Option String) (t : String) (h : t ∈ annotTokens c) :
    t ∈ ["double", "triple", "quad", "cluster"] ∨ t ∈ descriptors := by
  unfold annotTokens at h
  cases c with
  | none => simp at h
  | some s =>
    simp only at h
    split_ifs at h
    · simp at h
    · rcases List.mem_append.mp h with h1 | h2
      · left
        unfold multTokens at h1
        split_ifs at h1 <;> simp_all
      · right
        exact List.mem_of_mem_filter h2

/-- The frames branch can never emit `octagon`: the hexagon test
`polygon_count ≥ 6` shadows the `polygon_count ≥ 8` test. -/
theorem frames_no_octagon (c : Option String) (pc cc rc : Nat) :
    "octagon" ∉ framesTokens c pc cc rc := by
  unfold framesTokens
  intro h
  rcases List.mem_append.mp h with h' | h3
  · rcases List.mem_append.mp h' with h1 | h2
    · split_ifs at h1 <;> simp_all
    · split_ifs at h2 with hh1 hh2
      · simp at h2
      · omega
      · simp at h2
  · split_ifs at h3 <;> simp_all

/-- A failed parse makes the engine's output a function of the
annotation and the category alone. -/
theorem analyze_none_eq (comment : Option String) (cat : Category) :
    analyze_shape_characteristics comment none cat.label
      = annotationDrivenTokens comment cat.label := by
  cases cat <;>
    simp [analyze_eq, annotationDrivenTokens, Category.label, count_elements, fill_none_count,
      heartsStarsTokens, outlineTokens, categoryTokens, mountainsTokens, wavesTokens,
      compassesTokens, dividersTokens, badgesTokens, framesTokens, blobsTokens,
      lightningTokens, speechTokens, accentsTokens, stickerTokens]

end ShapeAssets

namespace ShapeAssets

/-- With no annotation, a badges asset only gets outline/scalloped. -/
theorem analyze_none_badges_sub (root : Option SvgNode) (t : String)
    (h : t ∈ analyze_shape_characteristics none root "badges") :
    t = "outline" ∨ t = "scalloped" := by
  rw [analyze_eq] at h
  have hA : annotTokens none = [] := rfl
  have hH : ∀ (cc pc : Nat) (tk : List String), heartsStarsTokens "badges" cc pc tk = [] :=
    fun _ _ _ => rfl
  have hC : ∀ (pc cc pathc rc ec lc : Nat) (tk : List String),
      categoryTokens "badges" none pc cc pathc rc ec lc tk = badgesTokens none pc cc :=
    fun _ _ _ _ _ _ _ => rfl
  rw [hA, hH, hC] at h
  simp only [List.nil_append] at h
  rcases List.mem_append.mp h with h1 | h2
  · rcases outline_cases root _ _ _ with ho | ho <;> rw [ho] at h1 <;> simp_all
  · rcases badges_none_cases _ _ with hb | hb <;> rw [hb] at h2 <;> simp_all

/-- With no annotation, a shields asset only gets outline/scalloped. -/
theorem analyze_none_shields_sub (root : Option SvgNode) (t : String)
    (h : t ∈ analyze_shape_characteristics none root "shields") :
    t = "outline" ∨ t = "scalloped" := by
  rw [analyze_eq] at h
  have hA : annotTokens none = [] := rfl
  have hH : ∀ (cc pc : Nat) (tk : List String), heartsStarsTokens "shields" cc pc tk = [] :=
    fun _ _ _ => rfl
  have hC : ∀ (pc cc pathc rc ec lc : Nat) (tk : List String),
      categoryTokens "shields" none pc cc pathc rc ec lc tk = badgesTokens none pc cc :=
    fun _ _ _ _ _ _ _ => rfl
  rw [hA, hH, hC] at h
  simp only [List.nil_append] at h
  rcases List.mem_append.mp h with h1 | h2
  · rcases outline_cases root _ _ _ with ho | ho <;> rw [ho] at h1 <;> simp_all
  · rcases badges_none_cases _ _ with hb | hb <;> rw [hb] at h2 <;> simp_all

/-- With no annotation, a frames asset never gets `corner`. -/
theorem analyze_none_frames_sub (root : Option SvgNode) (t : String)
    (h : t ∈ analyze_shape_characteristics none root "frames") :
    t = "outline" ∨ t = "double" ∨ t = "hexagon" ∨ t = "octagon" := by
  rw [analyze_eq] at h
  have hA : annotTokens none = [] := rfl
  have hH : ∀ (cc pc : Nat) (tk : List String), heartsStarsTokens "frames" cc pc tk = [] :=
    fun _ _ _ => rfl
  have hC : ∀ (pc cc pathc rc ec lc : Nat) (tk : List String),
      categoryTokens "frames" none pc cc pathc rc ec lc tk = framesTokens none pc cc rc :=
    fun _ _ _ _ _ _ _ => rfl
  rw [hA, hH, hC] at h
  simp only [List.nil_append] at h
  rcases List.mem_append.mp h with h1 | h2
  · rcases outline_cases root _ _ _ with ho | ho <;> rw [ho] at h1 <;> simp_all
  · rcases frames_none_sub _ _ _ _ h2 with h | h | h <;> tauto

/-- With no annotation, a blobs asset never gets `asymmetric`. -/
theorem analyze_none_blobs_sub (root : Option SvgNode) (t : String)
    (h : t ∈ analyze_shape_characteristics none root "blobs") :
    t = "outline" ∨ t = "rounded" ∨ t = "oval" := by
  rw [analyze_eq] at h
  have hA : annotTokens none = [] := rfl
  have hH : ∀ (cc pc : Nat) (tk : List String), heartsStarsTokens "blobs" cc pc tk = [] :=
    fun _ _ _ => rfl
  have hC : ∀ (pc cc pathc rc ec lc : Nat) (tk : List String),
      categoryTokens "blobs" none pc cc pathc rc ec lc tk = blobsTokens none cc rc ec :=
    fun _ _ _ _ _ _ _ => rfl
  rw [hA, hH, hC] at h
  simp only [List.nil_append] at h
  rcases List.mem_append.mp h with h1 | h2
  · rcases outline_cases root _ _ _ with ho | ho <;> rw [ho] at h1 <;> simp_all
  · rcases blobs_none_sub _ _ _ _ h2 with h | h <;> tauto

/-- With no annotation, a lightning asset never gets `zigzag` or
`compact`. -/
theorem analyze_none_lightning_sub (root : Option SvgNode) (t : String)
    (h : t ∈ analyze_shape_characteristics none root "lightning") :
    t = "outline" ∨ t = "double" := by
  rw [analyze_eq] at h
  have hA : annotTokens none = [] := rfl
  have hH : ∀ (cc pc : Nat) (tk : List String), heartsStarsTokens "lightning" cc pc tk = [] :=
    fun _ _ _ => rfl
  have hC : ∀ (pc cc pathc rc ec lc : Nat) (tk : List String),
      categoryTokens "lightning" none pc cc pathc rc ec lc tk = lightningTokens none pc :=
    fun _ _ _ _ _ _ _ => rfl
  rw [hA, hH, hC] at h
  simp only [List.nil_append] at h
  rcases List.mem_append.mp h with h1 | h2
  · rcases outline_cases root _ _ _ with ho | ho <;> rw [ho] at h1 <;> simp_all
  · rcases lightning_none_cases _ with hl | hl <;> rw [hl] at h2 <;> simp_all

/-- With no annotation, a speech-bubbles asset never gets `tail`. -/
theorem analyze_none_speech_sub (root : Option SvgNode) (t : String)
    (h : t ∈ analyze_shape_characteristics none root "speech_bubbles") :
    t = "outline" ∨ t = "thought" ∨ t = "cloud" := by
  rw [analyze_eq] at h
  have hA : annotTokens none = [] := rfl
  have hH : ∀ (cc pc : Nat) (tk : List String),
      heartsStarsTokens "speech_bubbles" cc pc tk = [] := fun _ _ _ => rfl
  have hC : ∀ (pc cc pathc rc ec lc : Nat) (tk : List String),
      categoryTokens "speech_bubbles" none pc cc pathc rc ec lc tk = speechTokens none cc ec :=
    fun _ _ _ _ _ _ _ => rfl
  rw [hA, hH, hC] at h
  simp only [List.nil_append] at h
  rcases List.mem_append.mp h with h1 | h2
  · rcases outline_cases root _ _ _ with ho | ho <;> rw [ho] at h1 <;> simp_all
  · rcases speech_none_sub _ _ _ h2 with h | h <;> tauto

/-- With no annotation, a sticker-outlines asset only gets outline. -/
theorem analyze_none_sticker_sub (root : Option SvgNode) (t : String)
    (h : t ∈ analyze_shape_characteristics none root "sticker_outlines") :
    t = "outline" := by
  rw [analyze_eq] at h
  have hA : annotTokens none = [] := rfl
  have hH : ∀ (cc pc : Nat) (tk : List String),
      heartsStarsTokens "sticker_outlines" cc pc tk = [] := fun _ _ _ => rfl
  have hC : ∀ (pc cc pathc rc ec lc : Nat) (tk : List String),
      categoryTokens "sticker_outlines" none pc cc pathc rc ec lc tk = stickerTokens none pc :=
    fun _ _ _ _ _ _ _ => rfl
  rw [hA, hH, hC, sticker_none_eq] at h
  simp only [List.nil_append, List.append_nil] at h
  rcases outline_cases root _ _ _ with ho | ho <;> rw [ho] at h <;> simp_all

end ShapeAssets

namespace ShapeAssets

/-! ## Collision-resolver lemmas -/

/-- Counter lookup after a hit at the head. -/
theorem lookupCount_cons_pos {k' : String} {v : Nat} (rest : List (String × Nat)) (k : String)
    (h : (k' == k) = true) : lookupCount ((k', v) :: rest) k = v := by
  have hf : List.find? (fun q => q.1 == k) ((k', v) :: rest) = some (k', v) :=
    List.find?_cons_of_pos rest h
  unfold lookupCount
  rw [hf]

/-- Counter lookup past a miss at the head. -/
theorem lookupCount_cons_neg {k' : String} {v : Nat} (rest : List (String × Nat)) (k : String)
    (h : (k' == k) = false) : lookupCount ((k', v) :: rest) k = lookupCount rest k := by
  have hf : List.find? (fun q => q.1 == k) ((k', v) :: rest)
      = List.find? (fun q => q.1 == k) rest :=
    List.find?_cons_of_neg rest (by simp [h])
  unfold lookupCount
  rw [hf]

/-- Incrementing a key raises its own count by one. -/
theorem lookupCount_bump_self : ∀ (m : List (String × Nat)) (k : String),
    lookupCount (bump m k) k = lookupCount m k + 1
  | [], k => by simp [bump, lookupCount]
  | (k', v) :: rest, k => by
    simp only [bump]
    by_cases h : (k' == k) = true
    · rw [if_pos h, lookupCount_cons_pos rest k h, lookupCount_cons_pos rest k h]
    · rw [if_neg h, lookupCount_cons_neg (bump rest k) k (by simpa using h),
        lookupCount_cons_neg rest k (by simpa using h)]
      exact lookupCount_bump_self rest k

/-- Incrementing a key leaves every other count unchanged. -/
theorem lookupCount_bump_ne : ∀ (m : List (String × Nat)) (k k2 : String),
    (k2 == k) = false → lookupCount (bump m k) k2 = lookupCount m k2
  | [], k, k2, h => by
    have hne : (k == k2) = false := by
      rw [beq_eq_false_iff_ne] at h ⊢
      exact fun he => h he.symm
    simp [bump, lookupCount, List.find?, hne]
  | (k', v) :: rest, k, k2, h => by
    simp only [bump]
    by_cases h1 : (k' == k) = true
    · have hk : k' = k := by simpa using h1
      subst hk
      have hne : (k' == k2) = false := by
        rw [beq_eq_false_iff_ne] at h ⊢
        exact fun he => h he.symm
      rw [if_pos h1, lookupCount_cons_neg rest k2 hne, lookupCount_cons_neg rest k2 hne]
    · rw [if_neg h1]
      by_cases h2 : (k' == k2) = true
      · rw [lookupCount_cons_pos _ k2 h2, lookupCount_cons_pos rest k2 h2]
      · rw [lookupCount_cons_neg _ k2 (by simpa using h2),
          lookupCount_cons_neg rest k2 (by simpa using h2)]
        exact lookupCount_bump_ne rest k k2 h

/-- Key count over a cons. -/
theorem countKey_cons (k : String) (p : String × String) (l : List (String × String)) :
    countKey k (p :: l) = (if (keyOf p == k) = true then 1 else 0) + countKey k l := by
  simp only [countKey, List.filter_cons]
  split_ifs with h
  all_goals simp
  all_goals omega

/-- The resolver's output at every position: the synthesized name,
suffixed according to the number of earlier occurrences of its key plus
whatever the incoming counter already recorded. -/
theorem resolveAll_getElem : ∀ (pairs : List (String × String))
    (counter : List (String × Nat)) (i : Nat) (p : String × String),
    pairs[i]? = some p →
    (resolveAll counter pairs)[i]? =
      some (suffixed p.2 (lookupCount counter (keyOf p) + countKey (keyOf p) (pairs.take i)))
  | [], _, i, p, h => by simp at h
  | (d, n) :: rest, counter, 0, p, h => by
    simp only [List.getElem?_cons_zero, Option.some.injEq] at h
    subst h
    simp [resolveAll, resolveName, countKey, keyOf]
  | (d, n) :: rest, counter, i + 1, p, h => by
    simp only [List.getElem?_cons_succ] at h
    have ih := resolveAll_getElem rest (bump counter (d ++ "/" ++ n)) i p h
    have hres : (resolveAll counter ((d, n) :: rest))[i + 1]?
        = (resolveAll (bump counter (d ++ "/" ++ n)) rest)[i]? := by
      simp [resolveAll, resolveName]
    rw [hres, ih]
    have htake : ((d, n) :: rest).take (i + 1) = (d, n) :: rest.take i := rfl
    rw [htake, countKey_cons]
    have hkey : keyOf (d, n) = d ++ "/" ++ n := rfl
    by_cases hk : (keyOf p == d ++ "/" ++ n) = true
    · have hkeq : keyOf p = d ++ "/" ++ n := by simpa using hk
      have h1 : lookupCount (bump counter (d ++ "/" ++ n)) (keyOf p)
          = lookupCount counter (keyOf p) + 1 := by
        rw [hkeq]
        exact lookupCount_bump_self counter (d ++ "/" ++ n)
      have h2 : ((keyOf (d, n) == keyOf p) = true) := by
        rw [hkey, hkeq]
        exact beq_self_eq_true _
      rw [h1, if_pos h2]
      exact congrArg (fun m => some (suffixed p.2 m)) (by omega)
    · have h1 : lookupCount (bump counter (d ++ "/" ++ n)) (keyOf p)
          = lookupCount counter (keyOf p) := by
        exact lookupCount_bump_ne counter (d ++ "/" ++ n) (keyOf p) (by simpa using hk)
      have hk' : (keyOf p == d ++ "/" ++ n) = false := by simpa using hk
      have h2 : ((keyOf (d, n) == keyOf p) = false) := by
        rw [hkey]
        rw [beq_eq_false_iff_ne] at hk' ⊢
        exact fun he => hk' he.symm
      rw [h1, h2]
      simp

end ShapeAssets

namespace ShapeAssets

/-! ## Claim theorems -/

/-- Claim C1, counterexample: for category `compasses`, annotation
`"double"`, and an asset with eight polygons and two circles, the
pipeline produces `double-ringed-eight-point-compass.svg`, a valid
non-empty name with FIVE hyphen-separated segments — the claimed
4-segment bound is violated because the emitted token `eight-point`
contains an internal hyphen. -/
theorem c1_counterexample :
    count_elements (some rootCompassEight) "polygon" = 8 ∧
    count_elements (some rootCompassEight) "circle" = 2 ∧
    fullName "compasses" (some "double") (some rootCompassEight)
      = "double-ringed-eight-point-compass.svg" ∧
    svgNameOk "double-ringed-eight-point-compass.svg" = true ∧
    segCount "double-ringed-eight-point-compass.svg" = 5 ∧
    decide (segCount "double-ringed-eight-point-compass.svg" ≤ 4) = false := by
  decide

/-- Claim C1, amended: for every category of the closed set and every
extracted content, the synthesized name is non-empty, matches
`^[a-z0-9]+(-[a-z0-9]+)*\.svg$`, falls back to the bare base word when
the token list is empty, and contains at most FIVE hyphen-separated
segments (at most 3 descriptor tokens plus the base, where the
mutually-exclusive compass tokens `eight-point`/`four-point` each span
two segments), excluding any `-vN` collision suffix. -/
theorem c1_name_validity (cat : Category) (comment : Option String) (root : Option SvgNode) :
    svgNameOk (fullName cat.label comment root) = true ∧
    segCount (fullName cat.label comment root) ≤ 5 ∧
    ((fullName cat.label comment root) == "") = false ∧
    ((analyze_shape_characteristics comment root cat.label).isEmpty = true →
      fullName cat.label comment root = baseWord cat.label ++ ".svg") :=
  fullName_valid cat comment root

/-- Claim C1, witness: the amended validity theorem evaluated on a
concrete waves asset with no annotation and a failed parse. -/
theorem c1_name_validity_witness :
    svgNameOk (fullName Category.waves.label none none) = true ∧
    segCount (fullName Category.waves.label none none) ≤ 5 ∧
    ((fullName Category.waves.label none none) == "") = false ∧
    fullName Category.waves.label none none = baseWord Category.waves.label ++ ".svg" :=
  ⟨(c1_name_validity Category.waves none none).1,
   (c1_name_validity Category.waves none none).2.1,
   (c1_name_validity Category.waves none none).2.2.1,
   (c1_name_validity Category.waves none none).2.2.2 (by decide)⟩

/-- Claim C2: the spec's hearts example — annotation
`"Double heart cluster, bold outline"`, 5 circles (4 unfilled) and one
polygon — yields tokens `[double, bold, outline, cluster]`, truncates
to `[double, bold, outline]`, and names the file
`double-bold-outline-heart.svg`. -/
theorem c2_spec_example :
    count_elements (some rootHeartsExample) "circle" = 5 ∧
    count_elements (some rootHeartsExample) "polygon" = 1 ∧
    fill_none_count (some rootHeartsExample) = 4 ∧
    analyze_shape_characteristics (some "Double heart cluster, bold outline")
      (some rootHeartsExample) "hearts" = ["double", "bold", "outline", "cluster"] ∧
    truncate3 (dedupTokens ["double", "bold", "outline", "cluster"])
      = ["double", "bold", "outline"] ∧
    fullName "hearts" (some "Double heart cluster, bold outline") (some rootHeartsExample)
      = "double-bold-outline-heart.svg" := by
  decide

/-- Claim C3: the collision resolver, fed the catalog in order with
its per-path counter seeded empty, leaves the first occurrence of each
destination unsuffixed and rewrites the Nth occurrence (N ≥ 2) to
`stem-vN.svg`; in particular two assets mapping to the same directory
and name get the pair (unsuffixed, `-v2`), which are distinct. -/
theorem c3_collision_uniqueness (pairs : List (String × String)) (i j : Nat) (d n : String)
    (_hij : i < j) (hi : pairs[i]? = some (d, n)) (hj : pairs[j]? = some (d, n))
    (hfirst : countKey (keyOf (d, n)) (pairs.take i) = 0)
    (hsecond : countKey (keyOf (d, n)) (pairs.take j) = 1) :
    (∀ (m : Nat) (q : String × String), pairs[m]? = some q →
      (resolveAll [] pairs)[m]? =
        some (suffixed q.2 (countKey (keyOf q) (pairs.take m)))) ∧
    (resolveAll [] pairs)[i]? = some n ∧
    (resolveAll [] pairs)[j]? = some (dropLast4 n ++ "-v2.svg") ∧
    (n == dropLast4 n ++ "-v2.svg") = false := by
  have hgen : ∀ (m : Nat) (q : String × String), pairs[m]? = some q →
      (resolveAll [] pairs)[m]? = some (suffixed q.2 (countKey (keyOf q) (pairs.take m))) := by
    intro m q hq
    have h := resolveAll_getElem pairs [] m q hq
    have h0 : lookupCount [] (keyOf q) = 0 := rfl
    rw [h0] at h
    simpa using h
  refine ⟨hgen, ?_, ?_, ?_⟩
  · rw [hgen i (d, n) hi, hfirst]
    simp [suffixed]
  · rw [hgen j (d, n) hj, hsecond]
    show some (suffixed n 1) = some (dropLast4 n ++ "-v2.svg")
    unfold suffixed
    rw [if_pos (by omega : 1 > 0)]
    have h2 : ("-v" : String) ++ (toString (1 + 1) ++ ".svg") = "-v2.svg" := rfl
    rw [String.append_assoc, String.append_assoc, h2]
  · apply beq_eq_false_iff_ne.mpr
    intro he
    have hlen := congrArg String.length he
    have h7 : ("-v2.svg" : String).length = 7 := rfl
    have h1 : (dropLast4 n).length = n.length - 4 := by
      show (n.toList.take (n.toList.length - 4)).length = n.length - 4
      rw [List.length_take]
      have hnl : n.toList.length = n.length := rfl
      rw [hnl, Nat.min_eq_left (Nat.sub_le _ _)]
    rw [String.length_append, h1, h7] at hlen
    omega

/-- Claim C3, witness: two identical `wave.svg` destinations resolve
to `wave.svg` and `wave-v2.svg`. -/
theorem c3_collision_uniqueness_witness :
    (resolveAll [] [("d", "wave.svg"), ("d", "wave.svg")])[0]? = some "wave.svg" ∧
    (resolveAll [] [("d", "wave.svg"), ("d", "wave.svg")])[1]?
      = some (dropLast4 "wave.svg" ++ "-v2.svg") ∧
    ("wave.svg" == dropLast4 "wave.svg" ++ "-v2.svg") = false := by
  have h := c3_collision_uniqueness [("d", "wave.svg"), ("d", "wave.svg")] 0 1 "d" "wave.svg"
    (by decide) rfl rfl (by decide) (by decide)
  exact ⟨h.2.1, h.2.2.1, h.2.2.2⟩

/-- Claim C4: an asset whose content fails structural parsing raises
nothing (the embedding is total), reports zero for every structural
count and for the no-fill count, produces exactly the tokens driven by
the category and the annotation rules, and still receives a valid
non-empty descriptive name. -/
theorem c4_graceful_degradation (cat : Category) (comment : Option String) :
    (∀ t : String, count_elements none t = 0) ∧
    fill_none_count none = 0 ∧
    analyze_shape_characteristics comment none cat.label
      = annotationDrivenTokens comment cat.label ∧
    svgNameOk (fullName cat.label comment none) = true ∧
    ((fullName cat.label comment none) == "") = false :=
  ⟨fun _ => rfl, rfl, analyze_none_eq comment cat,
    (fullName_valid cat comment none).1, (fullName_valid cat comment none).2.2.1⟩

/-- Claim C5: for category `hearts` with annotation `"triple"` and
exactly two circles and no polygons, rule 1 emits `triple` and the
category-count override still appends `double`, so both multiplicity
words are enumerated before truncation. -/
theorem c5_redundant_multiplicity :
    count_elements (some rootTwoCircles) "circle" = 2 ∧
    count_elements (some rootTwoCircles) "polygon" = 0 ∧
    analyze_shape_characteristics (some "triple") (some rootTwoCircles) "hearts"
      = ["triple", "double"] ∧
    (analyze_shape_characteristics (some "triple") (some rootTwoCircles) "hearts").contains
      "triple" = true ∧
    (analyze_shape_characteristics (some "triple") (some rootTwoCircles) "hearts").contains
      "double" = true := by
  decide

/-- Claim C6: with no annotation the engine is total and every
annotation-gated keyword lookup is treated as non-matching, so none of
the keyword-gated tokens is emitted by those lookups, for any parse
result. -/
theorem c6_absent_annotation (root : Option SvgNode) :
    ((analyze_shape_characteristics none root "badges").contains "hexagon" = false) ∧
    ((analyze_shape_characteristics none root "badges").contains "octagon" = false) ∧
    ((analyze_shape_characteristics none root "badges").contains "diamond" = false) ∧
    ((analyze_shape_characteristics none root "badges").contains "star" = false) ∧
    ((analyze_shape_characteristics none root "shields").contains "hexagon" = false) ∧
    ((analyze_shape_characteristics none root "shields").contains "octagon" = false) ∧
    ((analyze_shape_characteristics none root "shields").contains "diamond" = false) ∧
    ((analyze_shape_characteristics none root "shields").contains "star" = false) ∧
    ((analyze_shape_characteristics none root "frames").contains "corner" = false) ∧
    ((analyze_shape_characteristics none root "blobs").contains "asymmetric" = false) ∧
    ((analyze_shape_characteristics none root "lightning").contains "zigzag" = false) ∧
    ((analyze_shape_characteristics none root "lightning").contains "compact" = false) ∧
    ((analyze_shape_characteristics none root "speech_bubbles").contains "tail" = false) ∧
    ((analyze_shape_characteristics none root "sticker_outlines").contains "hexagon"
      = false) ∧
    ((analyze_shape_characteristics none root "sticker_outlines").contains "star" = false) := by
  refine ⟨?_, ?_, ?_, ?_, ?_, ?_, ?_, ?_, ?_, ?_, ?_, ?_, ?_, ?_, ?_⟩
  all_goals rw [contains_eq_false_iff]
  all_goals intro hmem
  · rcases analyze_none_badges_sub root _ hmem with h | h <;> simp at h
  · rcases analyze_none_badges_sub root _ hmem with h | h <;> simp at h
  · rcases analyze_none_badges_sub root _ hmem with h | h <;> simp at h
  · rcases analyze_none_badges_sub root _ hmem with h | h <;> simp at h
  · rcases analyze_none_shields_sub root _ hmem with h | h <;> simp at h
  · rcases analyze_none_shields_sub root _ hmem with h | h <;> simp at h
  · rcases analyze_none_shields_sub root _ hmem with h | h <;> simp at h
  · rcases analyze_none_shields_sub root _ hmem with h | h <;> simp at h
  · rcases analyze_none_frames_sub root _ hmem with h | h | h | h <;> simp at h
  · rcases analyze_none_blobs_sub root _ hmem with h | h | h <;> simp at h
  · rcases analyze_none_lightning_sub root _ hmem with h | h <;> simp at h
  · rcases analyze_none_lightning_sub root _ hmem with h | h <;> simp at h
  · rcases analyze_none_speech_sub root _ hmem with h | h | h <;> simp at h
  · have h := analyze_none_sticker_sub root _ hmem
    simp at h
  · have h := analyze_none_sticker_sub root _ hmem
    simp at h

/-- Claim C7: descriptive-name inference plus collision resolution is
a pure function of the catalog snapshot — equal ordered snapshots give
equal rename mappings (purity holds by construction: the embedding of
`generate_rename_mapping` threads its counter explicitly and reads
nothing else). -/
theorem c7_determinism (catalog1 catalog2 : List CatalogEntry) (h : catalog1 = catalog2) :
    generate_rename_mapping catalog1 = generate_rename_mapping catalog2 := by
  rw [h]

/-- Claim C7, witness: determinism evaluated on a one-entry catalog. -/
theorem c7_determinism_witness :
    generate_rename_mapping [⟨"hmh", "waves", "wave_01.svg", none, none⟩]
      = generate_rename_mapping [⟨"hmh", "waves", "wave_01.svg", none, none⟩] :=
  c7_determinism _ _ rfl

/-- Claim C8: the apply phase renames only when the source exists and
the destination is absent (or equals the source); otherwise it skips
and leaves the filesystem unchanged for that record; and the batch
always produces exactly one outcome per record — no record aborts it. -/
theorem c8_apply_contract (fs : List String) (oldPath newPath : String)
    (records : List (String × String)) :
    (oldPath ∉ fs → applyRecord fs oldPath newPath = (fs, ApplyOutcome.skippedMissing)) ∧
    (oldPath ∈ fs → newPath ∈ fs → oldPath ≠ newPath →
      applyRecord fs oldPath newPath = (fs, ApplyOutcome.skippedExists)) ∧
    (oldPath ∈ fs → (newPath ∉ fs ∨ oldPath = newPath) →
      (applyRecord fs oldPath newPath).2 = ApplyOutcome.renamed ∧
      newPath ∈ (applyRecord fs oldPath newPath).1 ∧
      (oldPath ≠ newPath → oldPath ∉ (applyRecord fs oldPath newPath).1)) ∧
    (execute_rename fs records).2.length = records.length := by
  refine ⟨?_, ?_, ?_, ?_⟩
  · intro h
    simp [applyRecord, h]
  · intro h1 h2 hne
    simp [applyRecord, h1, h2, hne]
  · intro h1 h2
    rcases h2 with h2 | h2
    · refine ⟨by simp [applyRecord, h1, h2], by simp [applyRecord, h1, h2], ?_⟩
      intro hne
      simp [applyRecord, h1, h2, List.mem_append, List.mem_filter, hne]
    · subst h2
      refine ⟨by simp [applyRecord, h1], by simp [applyRecord, h1], ?_⟩
      intro hne
      exact absurd rfl hne
  · induction records generalizing fs with
    | nil => rfl
    | cons r rest ih =>
      obtain ⟨o, nn⟩ := r
      simp [execute_rename, ih]

/-- Claim C8, witness: the contract evaluated on concrete filesystems
— a missing source skips, an existing distinct destination skips, a
free destination renames, and a two-record batch yields two outcomes. -/
theorem c8_apply_contract_witness :
    applyRecord ["a", "b"] "c" "d" = (["a", "b"], ApplyOutcome.skippedMissing) ∧
    applyRecord ["a", "b"] "a" "b" = (["a", "b"], ApplyOutcome.skippedExists) ∧
    (applyRecord ["a"] "a" "b").2 = ApplyOutcome.renamed ∧
    (execute_rename ["a"] [("a", "b"), ("x", "y")]).2.length = 2 :=
  ⟨(c8_apply_contract ["a", "b"] "c" "d" []).1 (by decide),
   (c8_apply_contract ["a", "b"] "a" "b" []).2.1 (by decide) (by decide) (by decide),
   ((c8_apply_contract ["a"] "a" "b" []).2.2.1 (by decide) (Or.inl (by decide))).1,
   (c8_apply_contract ["a"] "a" "b" [("a", "b"), ("x", "y")]).2.2.2⟩

/-- Claim C9, counterexample: `rstrip('s')` strips every trailing
`'s'`, not one pluralizing letter — for the label `glass` the code
uses base `gla` (name `gla.svg`) where the claim promises `glas`. -/
theorem c9_counterexample :
    baseWord "glass" = "gla" ∧
    generate_descriptive_name "glass" [] = "gla.svg" ∧
    stripOneTrailingS "glass" = "glas" ∧
    (baseWord "glass" == stripOneTrailingS "glass") = false := by
  decide

/-- Claim C9, amended: for every category label absent from the fixed
singular-base table, the base word is the label with ALL trailing `'s'`
characters stripped, and the bare name is that base pushed through the
sanitisation pipeline. -/
theorem c9_amended_base (category : String)
    (h : categorySingular.find? (fun p => p.1 == category) = none) :
    baseWord category = rstripS category ∧
    generate_descriptive_name category [] =
      String.mk (cleanupD ((rstripS category).toList)) ++ ".svg" := by
  have hb : baseWord category = rstripS category := by
    unfold baseWord
    rw [h]
  refine ⟨hb, ?_⟩
  show String.mk (cleanupD (interDash ([baseWord category].map String.toList))) ++ ".svg" = _
  rw [hb]
  rfl

/-- Claim C9, witness: the amended base rule evaluated at the absent
label `boxes`. -/
theorem c9_amended_base_witness :
    baseWord "boxes" = rstripS "boxes" ∧
    generate_descriptive_name "boxes" [] =
      String.mk (cleanupD ((rstripS "boxes").toList)) ++ ".svg" :=
  c9_amended_base "boxes" (by decide)

/-- Claim C10: for category `frames` the token `octagon` is never
emitted — the `polygon_count ≥ 6` test shadows the `polygon_count ≥ 8`
test — and a polygon count of 8 or more yields `hexagon` instead. -/
theorem c10_frames_octagon_unreachable (comment : Option String) (root : Option SvgNode) :
    "octagon" ∉ analyze_shape_characteristics comment root "frames" ∧
    (8 ≤ count_elements root "polygon" →
      "hexagon" ∈ analyze_shape_characteristics comment root "frames") := by
  have hH : ∀ (cc pc : Nat) (tk : List String), heartsStarsTokens "frames" cc pc tk = [] :=
    fun _ _ _ => rfl
  have hC : ∀ (pc cc pathc rc ec lc : Nat) (tk : List String),
      categoryTokens "frames" comment pc cc pathc rc ec lc tk
        = framesTokens comment pc cc rc := fun _ _ _ _ _ _ _ => rfl
  constructor
  · rw [analyze_eq]
    intro h
    rw [hH, hC] at h
    simp only [List.append_nil] at h
    rcases List.mem_append.mp h with h' | h4
    · rcases List.mem_append.mp h' with h1 | h3
      · rcases annot_tokens_sub comment _ h1 with hm | hd
        · simp at hm
        · exact absurd hd (by decide)
      · rcases outline_cases root _ _ _ with ho | ho <;> rw [ho] at h3 <;> simp at h3
    · exact frames_no_octagon comment _ _ _ h4
  · intro h8
    rw [analyze_eq, hC]
    refine List.mem_append.mpr (Or.inr ?_)
    unfold framesTokens
    refine List.mem_append.mpr (Or.inl (List.mem_append.mpr (Or.inr ?_)))
    have h6 : count_elements root "polygon" ≥ 6 := by omega
    rw [if_pos h6]
    simp

/-- Claim C10, witness: an eight-polygon frames asset with no
annotation gets `hexagon` and not `octagon`. -/
theorem c10_frames_octagon_unreachable_witness :
    "octagon" ∉ analyze_shape_characteristics none (some rootEightPolygons) "frames" ∧
    "hexagon" ∈ analyze_shape_characteristics none (some rootEightPolygons) "frames" :=
  ⟨(c10_frames_octagon_unreachable none (some rootEightPolygons)).1,
   (c10_frames_octagon_unreachable none (some rootEightPolygons)).2 (by decide)⟩

end ShapeAssets
